import Mathlib

/-
Verification of the annotation-to-signature translation engine of
numbakit-anjit (package nbkanjit: signature.py, manager.py, exceptions.py).

The Python code is shallowly embedded as follows.

* `NType` models the backend compiler type objects (numba types):
  the scalar types used by the default mapping, array types, anonymous
  tuple types and first-class function types.  `NSig` models a numba
  signature: an ordered list of argument types plus one return type;
  equality is structural.  `NType.mkSig r args` models the Python call
  `r(*args)` that assembles a signature from a return type.
* `PyVal` models the annotation-space values that can appear as a
  parameter or return annotation: Python `None`, the builtin classes
  `int`, `float`, `bool`, strings, integer literals, (unhashable) lists,
  backend type objects, and `Function(func)` forward-reference handles
  (the handle stores the referenced function's name, parameter list and
  return annotation, which is what `inspect.signature` exposes).
  A parameter annotation is an `Option PyVal`; `none` models the
  `inspect.Signature.empty` sentinel.
* Exceptions: `AnjitErr` models the `AnjitException` hierarchy with its
  `_extra_info` list (`appendInfo`); `PyErr` adds the non-library Python
  exceptions that can escape (`TypeError`, `KeyError`, `ValueError`).
  `.noFuel` is an artifact of the embedding: the Python resolver can
  recurse unboundedly through missing-annotation fallbacks, so the
  recursive functions carry a fuel counter that is decremented exactly at
  the `convert_annotation` -> `map_to_numba_type(missing_value)` edge
  (the only edge that does not descend structurally); `.noFuel` marks an
  exhausted counter and corresponds to Python's unbounded recursion.
* `Builder.mapping` is an `Option`: `none` models the module-level
  `DEFAULT` sentinel object being stored unsubstituted (subscripting that
  plain `object()` raises `TypeError`), `some m` a real dict.  Mapping
  values are typed as `NType`, the invariant `verify_mapping` checks.
  A dict lookup first hashes its key: looking up an unhashable value
  raises `TypeError`, which is not a `KeyError` and therefore not
  converted to `UnknownAnnotation` by `map_to_numba_type`.
-/

inductive NType where
  | void
  | int64
  | float64
  | boolean
  | array (base : NType) (ndim : Nat)
  | tup (elems : List NType)
  | functionType (args : List NType) (ret : NType)

mutual

def NType.beq : NType → NType → Bool
  | .void, .void => true
  | .int64, .int64 => true
  | .float64, .float64 => true
  | .boolean, .boolean => true
  | .array b1 n1, .array b2 n2 => NType.beq b1 b2 && n1 == n2
  | .tup es, .tup fs => NType.beqList es fs
  | .functionType as r, .functionType bs s => NType.beqList as bs && NType.beq r s
  | _, _ => false

def NType.beqList : List NType → List NType → Bool
  | [], [] => true
  | e :: es, f :: fs => NType.beq e f && NType.beqList es fs
  | _, _ => false

end

instance : BEq NType := ⟨NType.beq⟩

structure NSig where
  args : List NType
  ret : NType

/-- `NType.mkSig r args` models the Python call `r(*args)` on a numba type
`r`, which assembles the numba signature with argument types `args` and
return type `r`. -/
def NType.mkSig (ret : NType) (args : List NType) : NSig := ⟨args, ret⟩

/-- Models `numba.types.FunctionType(sig)`. -/
def NSig.toFnType (s : NSig) : NType := .functionType s.args s.ret

inductive PyVal where
  | pyNone
  | pyIntTy
  | pyFloatTy
  | pyBoolTy
  | pyStr (s : String)
  | pyInt (n : Int)
  | pyList (xs : List PyVal)
  | nty (t : NType)
  | funcHandle (fname : String) (fparams : List (String × Option PyVal)) (fret : Option PyVal)

mutual

def PyVal.beq (a b : PyVal) : Bool :=
  match a, b with
  | .pyNone, .pyNone => true
  | .pyIntTy, .pyIntTy => true
  | .pyFloatTy, .pyFloatTy => true
  | .pyBoolTy, .pyBoolTy => true
  | .pyStr s, .pyStr t => s == t
  | .pyInt n, .pyInt m => n == m
  | .pyList xs, .pyList ys => PyVal.beqList xs ys
  | .nty t, .nty u => NType.beq t u
  | .funcHandle n1 ps1 r1, .funcHandle n2 ps2 r2 =>
    n1 == n2 && PyVal.beqParams ps1 ps2 && PyVal.beqOpt r1 r2
  | _, _ => false
termination_by structural a

def PyVal.beqList (as bs : List PyVal) : Bool :=
  match as, bs with
  | [], [] => true
  | x :: xs, y :: ys => PyVal.beq x y && PyVal.beqList xs ys
  | _, _ => false
termination_by structural as

def PyVal.beqParams (ps qs : List (String × Option PyVal)) : Bool :=
  match ps, qs with
  | [], [] => true
  | p :: ps, q :: qs => p.1 == q.1 && PyVal.beqOpt p.2 q.2 && PyVal.beqParams ps qs
  | _, _ => false
termination_by structural ps

def PyVal.beqOpt (a b : Option PyVal) : Bool :=
  match a, b with
  | none, none => true
  | some a, some b => PyVal.beq a b
  | _, _ => false
termination_by structural a

end

instance : BEq PyVal := ⟨PyVal.beq⟩

/-- Models Python hashability of annotation values: a `list` is the
unhashable representative in this value universe (every other modelled
value, including a `Function` handle via its `__hash__`, is hashable). -/
def PyVal.hashableB : PyVal → Bool
  | .pyList _ => false
  | _ => true

/-- `is_numba_type(obj)`: the mro of `obj.__class__` contains
`numba.core.types.abstract.Type`, i.e. `obj` is a backend type object. -/
def is_numba_type : PyVal → Bool
  | .nty _ => true
  | _ => false

/-- `isinstance(obj, Function)`: `obj` is a forward-reference handle. -/
def isFuncHandleB : PyVal → Bool
  | .funcHandle _ _ _ => true
  | _ => false

/-- Rough rendering of an annotation value, standing in for Python's
`str()` as interpolated in the library's error messages. -/
def renderVal : PyVal → String
  | .pyNone => "None"
  | .pyIntTy => "int"
  | .pyFloatTy => "float"
  | .pyBoolTy => "bool"
  | .pyStr s => s
  | .pyInt n => toString n
  | .pyList _ => "list"
  | .nty _ => "numba type"
  | .funcHandle n _ _ => "Function " ++ n

def renderAnn : Option PyVal → String
  | none => "empty"
  | some v => renderVal v

inductive AnjitErr where
  | unknownAnn (value : PyVal) (info : List String)
  | missingAnn (name : String) (info : List String)
  | notNumbaSig (value : PyVal) (info : List String)

/-- `AnjitException.append_info`: appends one context line to the
exception's `_extra_info` list, leaving class and carried value alone. -/
def AnjitErr.appendInfo (e : AnjitErr) (s : String) : AnjitErr :=
  match e with
  | .unknownAnn v i => .unknownAnn v (i ++ [s])
  | .missingAnn n i => .missingAnn n (i ++ [s])
  | .notNumbaSig v i => .notNumbaSig v (i ++ [s])

/-- The exception with its diagnostic `_extra_info` cleared: what remains
is the exception class and the value passed to its constructor. -/
def AnjitErr.stripInfo : AnjitErr → AnjitErr
  | .unknownAnn v _ => .unknownAnn v []
  | .missingAnn n _ => .missingAnn n []
  | .notNumbaSig v _ => .notNumbaSig v []

def AnjitErr.infoOf : AnjitErr → List String
  | .unknownAnn _ i => i
  | .missingAnn _ i => i
  | .notNumbaSig _ i => i

/-- The `extra_info` property: newline-joined `_extra_info`. -/
def AnjitErr.extraInfoStr (i : List String) : String :=
  match i with
  | [] => ""
  | _ => "\n" ++ String.intercalate "\n" i

/-- `__str__` of the exceptions. -/
def AnjitErr.strOf : AnjitErr → String
  | .unknownAnn v i =>
    "Unknown annotation, cannot translate " ++ renderVal v ++ " into a Numba type."
      ++ AnjitErr.extraInfoStr i
  | .missingAnn n i => "Missing annotation for " ++ n ++ "." ++ AnjitErr.extraInfoStr i
  | .notNumbaSig v i => "Not a numba signature: " ++ renderVal v ++ "." ++ AnjitErr.extraInfoStr i

inductive PyErr where
  | anjit (e : AnjitErr)
  | typeError (msg : String)
  | keyError (name : String)
  | valueError (msg : String)
  | noFuel

/-- `Builder(mapping, on_missing_arg, on_missing_ret)`.  `mapping = none`
models the `DEFAULT` sentinel object stored unsubstituted (the
constructor performs no substitution). -/
structure Builder where
  mapping : Option (List (PyVal × NType))
  on_missing_arg : PyVal
  on_missing_ret : PyVal

/-- The final `self.mapping[obj]` lookup of `Builder.map_to_numba_type`,
with the `except KeyError: raise UnknownAnnotation(obj)` handler.
Subscripting the `DEFAULT` sentinel (`none`) raises `TypeError`;
subscripting a dict with an unhashable key raises `TypeError`; neither is
a `KeyError`, so neither becomes `UnknownAnnotation`. -/
def mapLookup (b : Builder) (obj : PyVal) : Except PyErr NType :=
  match b.mapping with
  | none => .error (.typeError "object is not subscriptable")
  | some m =>
    if obj.hashableB then
      match m.find? (fun p => p.1 == obj) with
      | some p => .ok p.2
      | none => .error (.anjit (.unknownAnn obj []))
    else .error (.typeError "unhashable type")

mutual

/-- `Builder.map_to_numba_type(obj)`: rule order as in the source —
(1) `isinstance(obj, nt.Tuple)`: resolve each element, reassemble;
(2) `isinstance(obj, Function)`: function type of a freshly built
signature of the referenced function; (3) `is_numba_type(obj)`: return
unchanged; (4) mapping lookup. -/
def map_to_numba_type (fuel : Nat) (b : Builder) (obj : PyVal) : Except PyErr NType :=
  match obj with
  | .nty (.tup es) =>
    match mapTupleElems fuel b es with
    | .ok ts => .ok (.tup ts)
    | .error e => .error e
  | .funcHandle n ps r =>
    match build_signature_aux fuel b n ps r with
    | .ok s => .ok (.functionType s.args s.ret)
    | .error e => .error e
  | .nty t => .ok t
  | v => mapLookup b v
termination_by (fuel, sizeOf obj)

/-- The generator `tuple(self.map_to_numba_type(o) for o in obj)` over the
elements of a numba tuple type. -/
def mapTupleElems (fuel : Nat) (b : Builder) (es : List NType) : Except PyErr (List NType) :=
  match es with
  | [] => .ok []
  | e :: rest =>
    match map_to_numba_type fuel b (.nty e) with
    | .error er => .error er
    | .ok t =>
      match mapTupleElems fuel b rest with
      | .error er => .error er
      | .ok ts => .ok (t :: ts)
termination_by (fuel, sizeOf es)
decreasing_by
  · apply Prod.Lex.right
    have h : 0 < sizeOf rest := by cases rest <;> simp_arith
    simp only [PyVal.nty.sizeOf_spec, List.cons.sizeOf_spec]
    omega
  · apply Prod.Lex.right
    simp only [List.cons.sizeOf_spec]
    omega

/-- `Builder.convert_annotation(name, annotation, missing_value, empty)`.
The `annotation is empty` identity test is modelled by the `Option`;
the fuel is decremented on the fallback edge only (see header). -/
def convertAnn (fuel : Nat) (b : Builder) (name : String) (ann : Option PyVal)
    (missingValue : PyVal) : Except PyErr NType :=
  match ann with
  | none =>
    if missingValue == .pyStr "raise" then .error (.anjit (.missingAnn name []))
    else
      match fuel with
      | 0 => .error .noFuel
      | fuel' + 1 => map_to_numba_type fuel' b missingValue
  | some a => map_to_numba_type fuel b a
termination_by (fuel, sizeOf ann)

/-- The parameter loop of `Builder.build_signature`: converts each
parameter in declaration order, enriching a raised `MissingAnnotation`
with the function context and any other `AnjitException` with function,
argument name and raw annotation. -/
def buildParams (fuel : Nat) (b : Builder) (fname : String)
    (ps : List (String × Option PyVal)) : Except PyErr (List NType) :=
  match ps with
  | [] => .ok []
  | (pname, pann) :: rest =>
    match convertAnn fuel b pname pann b.on_missing_arg with
    | .ok t =>
      match buildParams fuel b fname rest with
      | .ok ts => .ok (t :: ts)
      | .error e => .error e
    | .error (.anjit e) =>
      match e with
      | .missingAnn _ _ => .error (.anjit (e.appendInfo ("_func: " ++ fname)))
      | _ =>
        .error (.anjit (e.appendInfo
          ("_func: " ++ fname ++ ". Argument: " ++ pname ++ ", Annotation: "
            ++ renderAnn pann)))
    | .error e => .error e
termination_by (fuel, sizeOf ps)

/-- `Builder.build_signature` after unwrapping, over the introspected
parameter list and return annotation: parameter loop, then the return
annotation under the missing-return policy with pseudo-name `"return"`,
then the assembly `ret(*pars)`. -/
def build_signature_aux (fuel : Nat) (b : Builder) (fname : String)
    (ps : List (String × Option PyVal)) (ret : Option PyVal) : Except PyErr NSig :=
  match buildParams fuel b fname ps with
  | .error e => .error e
  | .ok ts =>
    match convertAnn fuel b "return" ret b.on_missing_ret with
    | .ok tr => .ok (NType.mkSig tr ts)
    | .error (.anjit e) =>
      match e with
      | .missingAnn _ _ => .error (.anjit (e.appendInfo ("_func: " ++ fname)))
      | _ =>
        .error (.anjit (e.appendInfo
          ("_func: " ++ fname ++ ". Return annotation: " ++ renderAnn ret)))
    | .error e => .error e
termination_by (fuel, sizeOf ps + sizeOf ret)
decreasing_by
  · apply Prod.Lex.right
    have h : 0 < sizeOf ret := by cases ret <;> simp_arith
    omega
  · apply Prod.Lex.right
    have h : 0 < sizeOf ps := by cases ps <;> simp_arith
    omega

end

/-- The introspectable data of a Python function: `__name__`, the ordered
parameter list with raw annotations (`none` = no annotation), and the raw
return annotation. -/
structure PyFunc where
  name : String
  params : List (String × Option PyVal)
  ret : Option PyVal

/-- `Function(f)` used directly as an annotation value. -/
def PyFunc.handle (f : PyFunc) : PyVal := .funcHandle f.name f.params f.ret

/-- `inspect.signature(f).parameters[item].annotation`, failing with a
`KeyError` when no parameter is named `item`. -/
def paramAnnOf (f : PyFunc) (item : String) : Except PyErr (Option PyVal) :=
  match f.params.find? (fun p => p.1 == item) with
  | some p => .ok p.2
  | none => .error (.keyError item)

/-- `Function.__getattr__`: named-attribute access on a forward-reference
handle returns the referenced parameter's raw annotation, with the
source's special cases for the mangled names `"__name"` and `"_name"`. -/
def PyFunc.getAttr (f : PyFunc) (item : String) : Except PyErr (Option PyVal) :=
  if item == "__name" then paramAnnOf f "_name"
  else if item == "_name" then paramAnnOf f "name"
  else paramAnnOf f item

/-- The `Function._return` property: the raw return annotation. -/
def PyFunc.returnAnn (f : PyFunc) : Option PyVal := f.ret

/-- A Python callable as passed to the decorators: a plain function, a
`staticmethod` wrapper, or an already numba-compiled function. -/
inductive Callable where
  | plain (f : PyFunc)
  | static (inner : Callable)
  | compiled (f : PyFunc) (sig : NSig)

/-- `inspect.signature(c)`: a bare `staticmethod` object is not a
callable for `inspect` (Python < 3.10) and raises `TypeError`. -/
def Callable.introspect : Callable → Except PyErr PyFunc
  | .plain f => .ok f
  | .compiled f _ => .ok f
  | .static _ => .error (.typeError "is not a callable object")

/-- `Builder.build_signature(func)`: one `staticmethod` unwrapping via
`func.__func__`, then introspection, then the annotation walk. -/
def Builder.build_signature (b : Builder) (fuel : Nat) (c : Callable) : Except PyErr NSig :=
  let c' := match c with
    | .static i => i
    | x => x
  match c'.introspect with
  | .ok f => build_signature_aux fuel b f.name f.params f.ret
  | .error e => .error e

/-- `DEFAULT_TYPE_MAPPING`. -/
def DEFAULT_TYPE_MAPPING : List (PyVal × NType) :=
  [(.pyNone, .void), (.pyIntTy, .int64), (.pyFloatTy, .float64), (.pyBoolTy, .boolean)]

/-- Module-level `build_signature(func, mapping=DEFAULT, **kwargs)`:
constructs a `Builder` directly from its arguments.  The `DEFAULT`
sentinel (`none`) is passed through to the `Builder` without
substitution. -/
def build_signature (fuel : Nat) (c : Callable)
    (mapping : Option (List (PyVal × NType))) (oma omr : PyVal) : Except PyErr NSig :=
  Builder.build_signature ⟨mapping, oma, omr⟩ fuel c

/-- What a call of `anjit` can return: a callable (possibly the original
function object), Python `None`, the `njit_decorator` closure (capturing
the substituted mapping and the missing-value policies), or a raised
exception. -/
inductive JitResult where
  | value (c : Callable)
  | pyNone
  | deco (mapping : List (PyVal × NType)) (oma : PyVal) (omr : PyVal)
  | raise (e : PyErr)

/-- `numba.njit(sig, **kwargs)(c)`: the backend compile step, modelled as
tagging the function with the signature it was compiled against.
Applying it to a bare `staticmethod` object fails (not callable). -/
def njitCompile (sig : NSig) (c : Callable) : JitResult :=
  match c with
  | .plain f => .value (.compiled f sig)
  | .compiled f _ => .value (.compiled f sig)
  | .static _ => .raise (.typeError "staticmethod object is not callable")

/-- The `njit_decorator` closure inside `anjit`: build the signature,
then hand the function to the backend. -/
def njitDeco (fuel : Nat) (b : Builder) (c : Callable) : JitResult :=
  match b.build_signature fuel c with
  | .ok sig => njitCompile sig c
  | .error e => .raise e

/-- `anjit(func=None, *, mapping=DEFAULT, on_missing_arg="raise",
on_missing_ret="raise", **kwargs)`.  Substitutes the default mapping for
the sentinel, then: no function -> return the decorator closure;
staticmethod -> compile the unwrapped function and re-wrap the result
with `staticmethod(...)`; otherwise compile directly. -/
def anjit (fuel : Nat) (func : Option Callable)
    (mapping : Option (List (PyVal × NType))) (oma omr : PyVal) : JitResult :=
  let m := match mapping with
    | none => DEFAULT_TYPE_MAPPING
    | some mm => mm
  let b : Builder := ⟨some m, oma, omr⟩
  match func with
  | none => .deco m oma omr
  | some (.static inner) =>
    match njitDeco fuel b inner with
    | .value v => .value (.static v)
    | r => r
  | some c => njitDeco fuel b c

/-- Applying the value returned by a decorator-factory call to a function
(the second step of `@anjit(...)`).  Applying the closure runs
`njit_decorator`; applying Python `None` raises `TypeError`.  Calling a
returned callable would run user code, which is outside this model. -/
def JitResult.applyTo (fuel : Nat) (r : JitResult) (c : Callable) : JitResult :=
  match r with
  | .deco m oma omr => njitDeco fuel ⟨some m, oma, omr⟩ c
  | .pyNone => .raise (.typeError "NoneType object is not callable")
  | .value _ => .raise (.typeError "calling a compiled object is outside this model")
  | .raise e => .raise e

/-- `JitManager` instance state.  `signatures` is the `_signatures`
registry dict.  The opaque `**kwargs` forwarded to the backend do not
affect any modelled observation and are omitted. -/
structure JitManager where
  mapping : List (PyVal × NType)
  on_missing_arg : PyVal
  on_missing_ret : PyVal
  disable_jit : Bool
  signatures : List (String × NSig)

/-- `JitManager.__init__(*, mapping=DEFAULT, on_missing_arg="raise",
on_missing_ret="raise", disable_jit=False)`: substitutes
`DEFAULT_TYPE_MAPPING` for the sentinel and starts with an empty
registry. -/
def JitManager.init (mapping : Option (List (PyVal × NType)))
    (oma omr : PyVal) (dis : Bool) : JitManager :=
  ⟨(match mapping with
    | none => DEFAULT_TYPE_MAPPING
    | some m => m), oma, omr, dis, []⟩

/-- The `signature_or_function` argument of `JitManager.njit`. -/
inductive NjitArg where
  | sig (s : NSig)
  | cal (c : Callable)

/-- Outcome of `JitManager.njit`: either the argument returned unchanged
(jit disabled, no backend call) or the argument handed to `numba.njit`. -/
inductive NjitRes where
  | passthrough (a : NjitArg)
  | backendNjit (a : NjitArg)

/-- `JitManager.njit(signature_or_function, ...)`. -/
def JitManager.njit (jm : JitManager) (arg : NjitArg) : NjitRes :=
  if jm.disable_jit then .passthrough arg else .backendNjit arg

/-- Alias for the module-level `signature.anjit`, as imported by
`manager.py` (the manager method shadows the plain name below). -/
def signatureAnjit : Nat → Option Callable → Option (List (PyVal × NType)) →
    PyVal → PyVal → JitResult := anjit

/-- `JitManager.anjit(func=None, **kwargs)`: if jit is disabled the
argument is returned as-is (even when it is `None`); otherwise the
instance configuration (overridable per call) seeds `anjit`. -/
def JitManager.anjit (fuel : Nat) (jm : JitManager) (func : Option Callable)
    (mOv : Option (List (PyVal × NType))) (omaOv omrOv : Option PyVal) : JitResult :=
  if jm.disable_jit then
    match func with
    | some c => .value c
    | none => .pyNone
  else
    signatureAnjit fuel func
      (some (match mOv with
        | none => jm.mapping
        | some m => m))
      (match omaOv with
        | none => jm.on_missing_arg
        | some v => v)
      (match omrOv with
        | none => jm.on_missing_ret
        | some v => v)

/-- A value passed in the `name_or_func` / `func` positions of
`JitManager.register` and `JitManager.njit_tmpl`. -/
inductive RegArg where
  | str (s : String)
  | cal (c : Callable)
  | sig (s : NSig)

/-- What `register` can return: the `_deco` closure, the registered
function, or Python `None` (the signature branch has no `return`). -/
inductive RegRet where
  | deco (name : String) (rod : Bool)
  | fn (c : Callable)
  | pyNone

/-- `is_numba_signature(obj)`: mro contains
`numba.core.typing.templates.Signature`. -/
def is_numba_signature : RegArg → Bool
  | .sig _ => true
  | _ => false

/-- Python `callable(...)` on the modelled values: a bare `staticmethod`
object is not callable (Python < 3.10); functions and compiled
dispatchers are. -/
def Callable.callableB : Callable → Bool
  | .static _ => false
  | _ => true

/-- `__name__` of a callable (a compiled dispatcher keeps the wrapped
function's name via `functools.wraps`). -/
def Callable.dunderName : Callable → String
  | .plain f => f.name
  | .compiled f _ => f.name
  | .static i => Callable.dunderName i

/-- Python-dict assignment `d[k] = v`: replace in place or append. -/
def dictSet : List (String × NSig) → String → NSig → List (String × NSig)
  | [], k, v => [(k, v)]
  | p :: rest, k, v => if p.1 == k then (k, v) :: rest else p :: dictSet rest k v

/-- Python-dict lookup `d.get(k)`. -/
def lookupSig (m : List (String × NSig)) (k : String) : Option NSig :=
  (m.find? (fun p => p.1 == k)).map (fun p => p.2)

/-- `k in d`. -/
def memSig (m : List (String × NSig)) (k : String) : Bool :=
  m.any (fun p => p.1 == k)

/-- The tail of `JitManager.register` after the call-shape dispatch: the
duplicate check, then either direct storage of a numba signature (no
`return` statement: Python `None`), or build-then-store returning the
function.  Registering a non-callable, non-signature value fails inside
`inspect.signature`. -/
def registerCore (fuel : Nat) (jm : JitManager) (name : String) (v : RegArg)
    (rod : Bool) : JitManager × Except PyErr RegRet :=
  if rod && memSig jm.signatures name then
    (jm, .error (.valueError (name ++ " already registered.")))
  else
    match v with
    | .sig s => ({ jm with signatures := dictSet jm.signatures name s }, .ok .pyNone)
    | .cal c =>
      match Builder.build_signature ⟨some jm.mapping, jm.on_missing_arg, jm.on_missing_ret⟩
          fuel c with
      | .ok s => ({ jm with signatures := dictSet jm.signatures name s }, .ok (.fn c))
      | .error e => (jm, .error e)
    | .str _ => (jm, .error (.typeError "is not a callable object"))

/-- `JitManager.register(name_or_func=None, func=None, /, *,
raise_on_duplicate=True)`: dispatch over the three documented call
shapes.  The registry dict is threaded explicitly; an error leaves it
unchanged.  Dict keys other than strings are outside this model. -/
def JitManager.register (fuel : Nat) (jm : JitManager)
    (nameOrFunc func : Option RegArg) (rod : Bool) : JitManager × Except PyErr RegRet :=
  match func, nameOrFunc with
  | none, some (.str n) => (jm, .ok (.deco n rod))
  | none, some (.cal c) =>
    if c.callableB then registerCore fuel jm c.dunderName (.cal c) rod
    else (jm, .error (.valueError "If only a single argument is used, it must be a callable."))
  | none, _ => (jm, .error (.valueError "If only a single argument is used, it must be a callable."))
  | some v, some (.str n) => registerCore fuel jm n v rod
  | some _, _ => (jm, .error (.typeError "name argument outside this model"))

/-- What `njit_tmpl` can return: one of its decorator closures (with or
without a captured name) or a compiled callable. -/
inductive TmplRet where
  | deco (name : Option String)
  | value (c : Callable)

/-- The compile tail of `njit_tmpl`: `numba.njit(sig, **kwargs)` applied
to `func.__func__` when `func` is a `staticmethod` (returned WITHOUT
re-wrapping), else to `func` itself. -/
def tmplCompile (sig : NSig) (c : Callable) : TmplRet :=
  match c with
  | .static (.plain f) => .value (.compiled f sig)
  | .static (.compiled f _) => .value (.compiled f sig)
  | .static (.static _) => .value (.static (.static (.plain ⟨"", [], none⟩)))
  | .plain f => .value (.compiled f sig)
  | .compiled f _ => .value (.compiled f sig)

/-- The registry lookup plus compile tail of `njit_tmpl`:
`self._signatures[name]` raises `KeyError` when absent. -/
def tmplFinal (jm : JitManager) (name : String) (func : RegArg) : Except PyErr TmplRet :=
  match lookupSig jm.signatures name with
  | none => .error (.keyError name)
  | some sig =>
    match func with
    | .cal c => .ok (tmplCompile sig c)
    | _ => .error (.typeError "func argument outside this model")

/-- `JitManager.njit_tmpl(name_or_func=None, func=None, /, **kwargs)`:
name given alone -> named decorator; callable alone -> recurse with its
`__name__`; nothing -> name-inferring decorator; (name, func) -> look up
and compile. -/
def JitManager.njit_tmpl (jm : JitManager) (nameOrFunc func : Option RegArg) :
    Except PyErr TmplRet :=
  match func with
  | none =>
    match nameOrFunc with
    | some (.str n) => .ok (.deco (some n))
    | some (.cal c) =>
      if c.callableB then tmplFinal jm c.dunderName (.cal c)
      else .error (.typeError "name argument outside this model")
    | some (.sig _) => .error (.typeError "name argument outside this model")
    | none => .ok (.deco none)
  | some v =>
    match nameOrFunc with
    | some (.str n) => tmplFinal jm n v
    | none => .ok (.deco none)
    | some _ => .error (.typeError "name argument outside this model")

/-- `JitManager.f(name)`: a numba function type wrapping the registered
signature. -/
def JitManager.f (jm : JitManager) (name : String) : Except PyErr NType :=
  match lookupSig jm.signatures name with
  | some s => .ok (.functionType s.args s.ret)
  | none => .error (.keyError name)

/-- `isinstance(t, nt.Tuple)` among backend types. -/
def NType.isTupB : NType → Bool
  | .tup _ => true
  | _ => false

/-- Does a build result carry a `MissingAnnotation` error? -/
def errIsMissingB : Except PyErr NSig → Bool
  | .error (.anjit (.missingAnn _ _)) => true
  | _ => false

/-- Does a resolution result carry an `UnknownAnnotation` error? -/
def errIsUnknownB : Except PyErr NType → Bool
  | .error (.anjit (.unknownAnn _ _)) => true
  | _ => false

/-- Is an `njit_tmpl` result a `staticmethod`-wrapped value? -/
def tmplIsStaticB : Except PyErr TmplRet → Bool
  | .ok (.value (.static _)) => true
  | _ => false

/-- A `Builder` seeded as by `anjit` with all defaults: the substituted
default mapping and the `"raise"` policies. -/
def defaultBuilder : Builder := ⟨some DEFAULT_TYPE_MAPPING, .pyStr "raise", .pyStr "raise"⟩

/-- `def fun1a(x: int, y: float) -> float` from the test suite. -/
def fun1a : PyFunc := ⟨"fun1a", [("x", some .pyIntTy), ("y", some .pyFloatTy)], some .pyFloatTy⟩

/-- `def fun1b(x: int, y: Function(fun1a).y) -> float`: the `y`
annotation is whatever the forward-reference handle's attribute access
produced at class-body evaluation time. -/
def fun1b : PyFunc :=
  ⟨"fun1b",
    [("x", some .pyIntTy),
     ("y",
       (match PyFunc.getAttr fun1a "y" with
        | .ok a => a
        | .error _ => none))],
    some .pyFloatTy⟩

/-- `def fun888(x: 888, y) -> float`: an unknown annotation on `x`
followed by a missing annotation on `y`. -/
def fun888 : PyFunc := ⟨"fun888", [("x", some (.pyInt 888)), ("y", none)], some .pyFloatTy⟩

/-- `def funMissY(x: int, y) -> float`. -/
def funMissY : PyFunc := ⟨"funMissY", [("x", some .pyIntTy), ("y", none)], some .pyFloatTy⟩

/-- `def funXYint(x: int, y: int) -> float`. -/
def funXYint : PyFunc := ⟨"funXYint", [("x", some .pyIntTy), ("y", some .pyIntTy)], some .pyFloatTy⟩

/-- `def funIntToNone(x: int) -> None`. -/
def funIntToNone : PyFunc := ⟨"funIntToNone", [("x", some .pyIntTy)], some .pyNone⟩

/-- A builder configured with `on_missing_arg=int`. -/
def builderOMAint : Builder := ⟨some DEFAULT_TYPE_MAPPING, .pyIntTy, .pyStr "raise"⟩

/-- `nt.float64(nt.int64, nt.float64)`. -/
def sigIF : NSig := ⟨[.int64, .float64], .float64⟩

/-- `JitManager(disable_jit=True)`. -/
def jmDisabled : JitManager := JitManager.init none (.pyStr "raise") (.pyStr "raise") true

/-- A default `JitManager` whose registry maps `"g"` to `sigIF`. -/
def jmReg : JitManager :=
  ⟨DEFAULT_TYPE_MAPPING, .pyStr "raise", .pyStr "raise", false, [("g", sigIF)]⟩

theorem ntype_beq_iff : ∀ a b : NType, (NType.beq a b = true) ↔ a = b := by
  apply NType.rec
    (motive_1 := fun a => ∀ b : NType, (NType.beq a b = true) ↔ a = b)
    (motive_2 := fun as => ∀ bs : List NType, (NType.beqList as bs = true) ↔ as = bs)
  case void => intro b; cases b <;> simp [NType.beq]
  case int64 => intro b; cases b <;> simp [NType.beq]
  case float64 => intro b; cases b <;> simp [NType.beq]
  case boolean => intro b; cases b <;> simp [NType.beq]
  case array => intro base ndim ih b; cases b <;> simp [NType.beq, ih]
  case tup => intro es ih b; cases b <;> simp [NType.beq, ih]
  case functionType => intro as r ih ihr b; cases b <;> simp [NType.beq, ih, ihr]
  case nil => intro bs; cases bs <;> simp [NType.beqList]
  case cons => intro e es ihe ihes bs; cases bs <;> simp [NType.beqList, ihe, ihes]

theorem pyval_beq_iff : ∀ a b : PyVal, (PyVal.beq a b = true) ↔ a = b := by
  apply PyVal.rec
    (motive_1 := fun a => ∀ b : PyVal, (PyVal.beq a b = true) ↔ a = b)
    (motive_2 := fun xs => ∀ ys : List PyVal, (PyVal.beqList xs ys = true) ↔ xs = ys)
    (motive_3 := fun ps => ∀ qs : List (String × Option PyVal),
      (PyVal.beqParams ps qs = true) ↔ ps = qs)
    (motive_4 := fun a => ∀ b : Option PyVal, (PyVal.beqOpt a b = true) ↔ a = b)
    (motive_5 := fun p => ∀ q : String × Option PyVal,
      ((p.1 == q.1 && PyVal.beqOpt p.2 q.2) = true) ↔ p = q)
  · intro b; cases b <;> simp [PyVal.beq]
  · intro b; cases b <;> simp [PyVal.beq]
  · intro b; cases b <;> simp [PyVal.beq]
  · intro b; cases b <;> simp [PyVal.beq]
  · intro s b; cases b <;> simp [PyVal.beq]
  · intro n b; cases b <;> simp [PyVal.beq]
  · intro xs ih b; cases b <;> simp [PyVal.beq, ih]
  · intro t b; cases b <;> simp [PyVal.beq, ntype_beq_iff]
  · intro n ps r ihp ihr b
    cases b <;> simp [PyVal.beq, ihp, ihr, and_assoc]
  · intro ys; cases ys <;> simp [PyVal.beqList]
  · intro x xs ihx ihxs ys; cases ys <;> simp [PyVal.beqList, ihx, ihxs]
  · intro qs; cases qs <;> simp [PyVal.beqParams]
  · intro p ps ihp ihps qs; cases qs <;> simp [PyVal.beqParams, ihp, ihps]
  · intro b; cases b <;> simp [PyVal.beqOpt]
  · intro a iha b; cases b <;> simp [PyVal.beqOpt, iha]
  · intro s a iha q
    obtain ⟨qf, qs⟩ := q
    simp [iha, Prod.ext_iff]

theorem ntype_eqb_def (a b : NType) : (a == b) = NType.beq a b := rfl

theorem pyval_eqb_def (a b : PyVal) : (a == b) = PyVal.beq a b := rfl

theorem PyVal.eqb_iff (a b : PyVal) : ((a == b) = true) ↔ a = b := pyval_beq_iff a b

theorem PyVal.eqb_false_iff (a b : PyVal) : ((a == b) = false) ↔ a ≠ b := by
  rw [← Bool.not_eq_true, not_iff_not]
  exact PyVal.eqb_iff a b

theorem map_base (fuel : Nat) (b : Builder) (v : PyVal)
    (h1 : is_numba_type v = false) (h2 : isFuncHandleB v = false) :
    map_to_numba_type fuel b v = mapLookup b v := by
  cases v
  case nty t => simp [is_numba_type] at h1
  case funcHandle n ps r => simp [isFuncHandleB] at h2
  all_goals rw [map_to_numba_type.eq_def]

theorem map_nty_tup (fuel : Nat) (b : Builder) (es : List NType) :
    map_to_numba_type fuel b (.nty (.tup es)) =
      (match mapTupleElems fuel b es with
       | .ok ts => .ok (.tup ts)
       | .error e => .error e) := by
  rw [map_to_numba_type.eq_def]

theorem map_nty_nontup (fuel : Nat) (b : Builder) (t : NType)
    (h : NType.isTupB t = false) :
    map_to_numba_type fuel b (.nty t) = .ok t := by
  cases t
  case tup es => simp [NType.isTupB] at h
  all_goals rw [map_to_numba_type.eq_def]

theorem map_handle (fuel : Nat) (b : Builder) (n : String)
    (ps : List (String × Option PyVal)) (r : Option PyVal) :
    map_to_numba_type fuel b (.funcHandle n ps r) =
      (match build_signature_aux fuel b n ps r with
       | .ok s => .ok (.functionType s.args s.ret)
       | .error e => .error e) := by
  rw [map_to_numba_type.eq_def]

theorem mapTupleElems_nil (fuel : Nat) (b : Builder) :
    mapTupleElems fuel b [] = .ok [] := by
  rw [mapTupleElems.eq_def]

theorem mapTupleElems_cons (fuel : Nat) (b : Builder) (e : NType) (rest : List NType) :
    mapTupleElems fuel b (e :: rest) =
      (match map_to_numba_type fuel b (.nty e) with
       | .error er => .error er
       | .ok t =>
         match mapTupleElems fuel b rest with
         | .error er => .error er
         | .ok ts => .ok (t :: ts)) := by
  rw [mapTupleElems.eq_def]

theorem convertAnn_some (fuel : Nat) (b : Builder) (name : String) (a : PyVal)
    (mv : PyVal) : convertAnn fuel b name (some a) mv = map_to_numba_type fuel b a := by
  rw [convertAnn.eq_def]

theorem convertAnn_none (fuel : Nat) (b : Builder) (name : String) (mv : PyVal) :
    convertAnn fuel b name none mv =
      (if mv == .pyStr "raise" then .error (.anjit (.missingAnn name []))
       else
         match fuel with
         | 0 => .error .noFuel
         | fuel' + 1 => map_to_numba_type fuel' b mv) := by
  rw [convertAnn.eq_def]

theorem buildParams_nil (fuel : Nat) (b : Builder) (fname : String) :
    buildParams fuel b fname [] = .ok [] := by
  rw [buildParams.eq_def]

theorem buildParams_cons (fuel : Nat) (b : Builder) (fname pname : String)
    (pann : Option PyVal) (rest : List (String × Option PyVal)) :
    buildParams fuel b fname ((pname, pann) :: rest) =
      (match convertAnn fuel b pname pann b.on_missing_arg with
       | .ok t =>
         match buildParams fuel b fname rest with
         | .ok ts => .ok (t :: ts)
         | .error e => .error e
       | .error (.anjit e) =>
         match e with
         | .missingAnn _ _ => .error (.anjit (e.appendInfo ("_func: " ++ fname)))
         | _ =>
           .error (.anjit (e.appendInfo
             ("_func: " ++ fname ++ ". Argument: " ++ pname ++ ", Annotation: "
               ++ renderAnn pann)))
       | .error e => .error e) := by
  rw [buildParams.eq_def]

theorem build_signature_aux_eq (fuel : Nat) (b : Builder) (fname : String)
    (ps : List (String × Option PyVal)) (ret : Option PyVal) :
    build_signature_aux fuel b fname ps ret =
      (match buildParams fuel b fname ps with
       | .error e => .error e
       | .ok ts =>
         match convertAnn fuel b "return" ret b.on_missing_ret with
         | .ok tr => .ok (NType.mkSig tr ts)
         | .error (.anjit e) =>
           match e with
           | .missingAnn _ _ => .error (.anjit (e.appendInfo ("_func: " ++ fname)))
           | _ =>
             .error (.anjit (e.appendInfo
               ("_func: " ++ fname ++ ". Return annotation: " ++ renderAnn ret)))
         | .error e => .error e) := by
  rw [build_signature_aux.eq_def]

/-- Claim C4: resolution is the identity on native types: for every
native compiler type `t` (including composite tuple types), every fuel
and every builder — hence every mapping, which is never consulted —
`map_to_numba_type` returns the value unchanged. -/
theorem c4_native_identity :
    ∀ (t : NType) (fuel : Nat) (b : Builder),
      map_to_numba_type fuel b (.nty t) = .ok t := by
  apply NType.rec
    (motive_1 := fun t => ∀ (fuel : Nat) (b : Builder),
      map_to_numba_type fuel b (.nty t) = .ok t)
    (motive_2 := fun es => ∀ (fuel : Nat) (b : Builder),
      mapTupleElems fuel b es = .ok es)
  case void => intro fuel b; exact map_nty_nontup fuel b _ rfl
  case int64 => intro fuel b; exact map_nty_nontup fuel b _ rfl
  case float64 => intro fuel b; exact map_nty_nontup fuel b _ rfl
  case boolean => intro fuel b; exact map_nty_nontup fuel b _ rfl
  case array => intro base ndim _ fuel b; exact map_nty_nontup fuel b _ rfl
  case functionType => intro as r _ _ fuel b; exact map_nty_nontup fuel b _ rfl
  case tup => intro es ih fuel b; rw [map_nty_tup, ih fuel b]
  case nil => intro fuel b; exact mapTupleElems_nil fuel b
  case cons =>
    intro e rest ihe ihrest fuel b
    rw [mapTupleElems_cons, ihe fuel b, ihrest fuel b]

/-- Claim C3 (amended): for a value that is neither a forward-reference
handle nor a native type, resolution under a real mapping raises
`UnknownAnnotation` carrying the offending value — and with a message
containing that value — exactly when the value is hashable and absent
from the mapping; an unhashable value instead escapes as the dict's
`TypeError`, a different exception kind. -/
theorem c3_unknown_annotation_lookup (fuel : Nat) (b : Builder)
    (m : List (PyVal × NType)) (obj : PyVal)
    (hm : b.mapping = some m)
    (hh : isFuncHandleB obj = false)
    (hn : is_numba_type obj = false) :
    ((map_to_numba_type fuel b obj = .error (.anjit (.unknownAnn obj []))) ↔
      (PyVal.hashableB obj = true ∧ m.find? (fun p => p.1 == obj) = none))
    ∧ (PyVal.hashableB obj = false →
        map_to_numba_type fuel b obj = .error (.typeError "unhashable type"))
    ∧ (∃ s1 s2, AnjitErr.strOf (.unknownAnn obj []) = s1 ++ renderVal obj ++ s2) := by
  rw [map_base fuel b obj hn hh]
  refine ⟨?_, ?_, ?_⟩
  · unfold mapLookup
    rw [hm]
    cases hhb : obj.hashableB with
    | false => simp
    | true =>
      cases hf : m.find? (fun p => p.1 == obj) with
      | none => simp [hf]
      | some p => simp [hf]
  · intro hhb
    unfold mapLookup
    rw [hm, hhb]
    simp
  · refine ⟨"Unknown annotation, cannot translate ", " into a Numba type.", ?_⟩
    simp [AnjitErr.strOf, AnjitErr.extraInfoStr]

/-- Claim C3 witness: the amended theorem applied at the unknown
annotation `888` under the default mapping. -/
theorem c3_unknown_annotation_lookup_witness :
    ((map_to_numba_type 3 defaultBuilder (.pyInt 888)
        = .error (.anjit (.unknownAnn (.pyInt 888) []))) ↔
      (PyVal.hashableB (.pyInt 888) = true
        ∧ DEFAULT_TYPE_MAPPING.find? (fun p => p.1 == PyVal.pyInt 888) = none)) :=
  (c3_unknown_annotation_lookup 3 defaultBuilder DEFAULT_TYPE_MAPPING (.pyInt 888)
    rfl rfl rfl).1

/-- Claim C3 counterexample: the unhashable annotation `[]` is neither a
handle nor native and is absent from the default mapping, yet resolving
it raises `TypeError` (the dict hash failure), not `UnknownAnnotation`. -/
theorem c3_counterexample :
    isFuncHandleB (.pyList []) = false
    ∧ is_numba_type (.pyList []) = false
    ∧ DEFAULT_TYPE_MAPPING.find? (fun p => p.1 == PyVal.pyList []) = none
    ∧ map_to_numba_type 3 defaultBuilder (.pyList [])
        = .error (.typeError "unhashable type")
    ∧ errIsUnknownB (map_to_numba_type 3 defaultBuilder (.pyList [])) = false := by
  refine ⟨rfl, rfl, by simp [DEFAULT_TYPE_MAPPING, List.find?, pyval_eqb_def, PyVal.beq], ?_, ?_⟩
  · rw [map_base 3 defaultBuilder (.pyList []) rfl rfl]
    simp [mapLookup, defaultBuilder, PyVal.hashableB]
  · rw [map_base 3 defaultBuilder (.pyList []) rfl rfl]
    simp [mapLookup, defaultBuilder, PyVal.hashableB, errIsUnknownB]

/-- Claim C5: forward-reference mirroring.  A `Function` handle used as
an annotation resolves to a native function type wrapping a freshly
built signature of the referenced function; the handle's named-attribute
access returns the referenced parameter's raw annotation; and `fun1b`,
whose `y` annotation mirrors `fun1a`'s `y` through the handle, builds to
a signature identical to `fun1a`'s. -/
theorem c5_forward_reference_mirroring :
    (∀ (fuel : Nat) (b : Builder) (n : String) (ps : List (String × Option PyVal))
        (r : Option PyVal),
      map_to_numba_type fuel b (.funcHandle n ps r) =
        (match build_signature_aux fuel b n ps r with
         | .ok s => .ok s.toFnType
         | .error e => .error e))
    ∧ PyFunc.getAttr fun1a "y" = .ok (some .pyFloatTy)
    ∧ Builder.build_signature defaultBuilder 3 (.plain fun1b)
        = Builder.build_signature defaultBuilder 3 (.plain fun1a)
    ∧ Builder.build_signature defaultBuilder 3 (.plain fun1a) = .ok sigIF
    ∧ map_to_numba_type 3 defaultBuilder (PyFunc.handle fun1a) = .ok sigIF.toFnType := by
  refine ⟨?_, ?_, ?_, ?_, ?_⟩
  · intro fuel b n ps r
    rw [map_handle]
    cases h : build_signature_aux fuel b n ps r <;> simp [NSig.toFnType]
  · rfl
  · simp [Builder.build_signature, Callable.introspect, fun1a, fun1b, PyFunc.getAttr,
      paramAnnOf, List.find?, build_signature_aux_eq, buildParams_cons, buildParams_nil,
      convertAnn_some, map_base, is_numba_type, isFuncHandleB, mapLookup, defaultBuilder,
      DEFAULT_TYPE_MAPPING, PyVal.hashableB, pyval_eqb_def, PyVal.beq, NType.mkSig]
  · simp [Builder.build_signature, Callable.introspect, fun1a, build_signature_aux_eq,
      buildParams_cons, buildParams_nil, convertAnn_some, map_base, is_numba_type,
      isFuncHandleB, mapLookup, defaultBuilder, DEFAULT_TYPE_MAPPING, PyVal.hashableB,
      List.find?, pyval_eqb_def, PyVal.beq, NType.mkSig, sigIF]
  · rw [show PyFunc.handle fun1a
        = PyVal.funcHandle fun1a.name fun1a.params fun1a.ret from rfl, map_handle]
    have h : build_signature_aux 3 defaultBuilder fun1a.name fun1a.params fun1a.ret
        = .ok sigIF := by
      simp [fun1a, build_signature_aux_eq, buildParams_cons, buildParams_nil,
        convertAnn_some, map_base, is_numba_type, isFuncHandleB, mapLookup, defaultBuilder,
        DEFAULT_TYPE_MAPPING, PyVal.hashableB, List.find?, pyval_eqb_def, PyVal.beq,
        NType.mkSig, sigIF]
    rw [h]
    rfl

/-- Claim C1: for a function whose parameters and return value all carry
explicit annotations that resolve through the active mapping,
`build_signature` returns the signature assembled by applying the
resolved return type to the resolved parameter types in declaration
order (`ret(*pars)`). -/
theorem c1_build_fully_annotated (fuel : Nat) (b : Builder) (f : PyFunc)
    (ts : List NType) (tr : NType) (r : PyVal)
    (hret : f.ret = some r)
    (hr : map_to_numba_type fuel b r = .ok tr)
    (hp : List.Forall₂
      (fun (p : String × Option PyVal) (t : NType) =>
        ∃ a, p.2 = some a ∧ map_to_numba_type fuel b a = .ok t) f.params ts) :
    Builder.build_signature b fuel (.plain f) = .ok (NType.mkSig tr ts) := by
  have hall : ∀ (ps : List (String × Option PyVal)) (tss : List NType),
      List.Forall₂
        (fun (p : String × Option PyVal) (t : NType) =>
          ∃ a, p.2 = some a ∧ map_to_numba_type fuel b a = .ok t) ps tss →
      buildParams fuel b f.name ps = .ok tss := by
    intro ps tss h
    induction h with
    | nil => exact buildParams_nil fuel b f.name
    | @cons p t ps1 ts1 ha _ ih =>
      obtain ⟨pname, pann⟩ := p
      obtain ⟨a, hpa, hmap⟩ := ha
      replace hpa : pann = some a := hpa
      subst hpa
      rw [buildParams_cons, convertAnn_some, hmap, ih]
  have hps : buildParams fuel b f.name f.params = .ok ts := hall f.params ts hp
  show build_signature_aux fuel b f.name f.params f.ret = .ok (NType.mkSig tr ts)
  rw [build_signature_aux_eq, hps, hret, convertAnn_some, hr]

/-- Claim C1 witness: the theorem applied to
`fun1a(x: int, y: float) -> float` under the default mapping. -/
theorem c1_build_fully_annotated_witness :
    Builder.build_signature defaultBuilder 3 (.plain fun1a)
      = .ok (NType.mkSig .float64 [.int64, .float64]) := by
  apply c1_build_fully_annotated 3 defaultBuilder fun1a [.int64, .float64] .float64
    .pyFloatTy rfl
  · rw [map_base 3 defaultBuilder .pyFloatTy rfl rfl]
    rfl
  · refine List.Forall₂.cons ⟨.pyIntTy, rfl, ?_⟩
      (List.Forall₂.cons ⟨.pyFloatTy, rfl, ?_⟩ List.Forall₂.nil)
    · rw [map_base 3 defaultBuilder .pyIntTy rfl rfl]
      rfl
    · rw [map_base 3 defaultBuilder .pyFloatTy rfl rfl]
      rfl

theorem convertAnn_none_raise (fuel : Nat) (b : Builder) (name : String) :
    convertAnn fuel b name none (.pyStr "raise") = .error (.anjit (.missingAnn name [])) := by
  rw [convertAnn_none]
  rfl

theorem convertAnn_none_fallback (fuel : Nat) (b : Builder) (name : String) (mv : PyVal)
    (h : (mv == PyVal.pyStr "raise") = false) :
    convertAnn (fuel + 1) b name none mv = map_to_numba_type fuel b mv := by
  rw [convertAnn_none, h]
  rfl

/-- Claim C2 (amended): a parameter with no annotation under the
`"raise"` policy makes `build_signature` fail with `MissingAnnotation`
naming that parameter, provided every earlier parameter resolves (an
earlier failure propagates its own error first); any other policy value
is resolved through the Type Mapper exactly as an explicit annotation
would be, so `fun(x: int, y)` with `on_missing_arg=int` builds the same
signature as `fun(x: int, y: int)`; the return annotation follows the
identical rule under the missing-return policy with pseudo-name
`"return"`. -/
theorem c2_missing_annotation_policy :
    (∀ (fuel : Nat) (b : Builder) (fname : String)
        (pre : List (String × Option PyVal)) (pname : String)
        (rest : List (String × Option PyVal)),
      b.on_missing_arg = .pyStr "raise" →
      (∀ p ∈ pre, ∃ t, convertAnn fuel b p.1 p.2 b.on_missing_arg = .ok t) →
      buildParams fuel b fname (pre ++ (pname, none) :: rest)
        = .error (.anjit (.missingAnn pname ["_func: " ++ fname])))
    ∧ (∀ (fuel : Nat) (b : Builder) (name : String) (mv : PyVal),
        mv ≠ .pyStr "raise" →
        convertAnn (fuel + 1) b name none mv = map_to_numba_type fuel b mv)
    ∧ (∀ (fuel : Nat) (b : Builder) (name : String) (a mv : PyVal),
        convertAnn fuel b name (some a) mv = map_to_numba_type fuel b a)
    ∧ Builder.build_signature builderOMAint (2 + 1) (.plain funMissY)
        = Builder.build_signature defaultBuilder (2 + 1) (.plain funXYint)
    ∧ Builder.build_signature defaultBuilder (2 + 1) (.plain funXYint)
        = .ok (NType.mkSig .float64 [.int64, .int64])
    ∧ (∀ (fuel : Nat) (b : Builder) (fname : String)
        (ps : List (String × Option PyVal)) (ts : List NType),
      b.on_missing_ret = .pyStr "raise" →
      buildParams fuel b fname ps = .ok ts →
      build_signature_aux fuel b fname ps none
        = .error (.anjit (.missingAnn "return" ["_func: " ++ fname]))) := by
  refine ⟨?_, ?_, ?_, ?_, ?_, ?_⟩
  · intro fuel b fname pre pname rest hma
    induction pre with
    | nil =>
      intro _
      simp only [List.nil_append]
      rw [buildParams_cons, hma, convertAnn_none_raise]
      simp [AnjitErr.appendInfo]
    | cons q pre' ih =>
      intro hpre
      obtain ⟨qn, qa⟩ := q
      obtain ⟨t, hq⟩ := hpre (qn, qa) (by simp)
      replace hq : convertAnn fuel b qn qa b.on_missing_arg = .ok t := hq
      simp only [List.cons_append]
      rw [buildParams_cons, hq, ih (fun p hp => hpre p (by simp [hp]))]
  · intro fuel b name mv hmv
    exact convertAnn_none_fallback fuel b name mv ((PyVal.eqb_false_iff mv _).mpr hmv)
  · intro fuel b name a mv
    exact convertAnn_some fuel b name a mv
  · simp [Builder.build_signature, Callable.introspect, funMissY, funXYint,
      build_signature_aux_eq, buildParams_cons, buildParams_nil, convertAnn_some,
      convertAnn_none_fallback, map_base, is_numba_type, isFuncHandleB, mapLookup,
      builderOMAint, defaultBuilder, DEFAULT_TYPE_MAPPING, PyVal.hashableB, List.find?,
      pyval_eqb_def, PyVal.beq, NType.mkSig]
  · simp [Builder.build_signature, Callable.introspect, funXYint, build_signature_aux_eq,
      buildParams_cons, buildParams_nil, convertAnn_some, map_base, is_numba_type,
      isFuncHandleB, mapLookup, defaultBuilder, DEFAULT_TYPE_MAPPING, PyVal.hashableB,
      List.find?, pyval_eqb_def, PyVal.beq, NType.mkSig]
  · intro fuel b fname ps ts hmr hps
    rw [build_signature_aux_eq, hps, hmr, convertAnn_none_raise]
    simp [AnjitErr.appendInfo]

/-- Claim C2 witness: the missing-parameter clause applied to
`funMissY(x: int, y) -> float` under the default policies, and the
fallback clause applied to `y` with policy `int`. -/
theorem c2_missing_annotation_policy_witness :
    buildParams 3 defaultBuilder "funMissY" ([("x", some .pyIntTy)] ++ ("y", none) :: [])
      = .error (.anjit (.missingAnn "y" ["_func: funMissY"]))
    ∧ convertAnn (2 + 1) builderOMAint "y" none .pyIntTy
      = map_to_numba_type 2 builderOMAint .pyIntTy := by
  constructor
  · apply c2_missing_annotation_policy.1 3 defaultBuilder "funMissY"
      [("x", some .pyIntTy)] "y" [] rfl
    intro p hp
    simp only [List.mem_singleton] at hp
    subst hp
    refine ⟨.int64, ?_⟩
    show convertAnn 3 defaultBuilder "x" (some .pyIntTy) defaultBuilder.on_missing_arg
      = .ok .int64
    rw [convertAnn_some, map_base 3 defaultBuilder .pyIntTy rfl rfl]
    rfl
  · apply c2_missing_annotation_policy.2.1 2 builderOMAint "y" .pyIntTy
    intro h
    cases h

/-- Claim C2 counterexample: in `fun888(x: 888, y) -> float` the
parameter `y` has no annotation and the policy is the raise sentinel,
yet `build_signature` fails with `UnknownAnnotation(888)` from the
earlier parameter `x`, not with a `MissingAnnotation` naming `y`. -/
theorem c2_counterexample :
    fun888.params = [("x", some (.pyInt 888)), ("y", none)]
    ∧ defaultBuilder.on_missing_arg = .pyStr "raise"
    ∧ Builder.build_signature defaultBuilder 3 (.plain fun888)
        = .error (.anjit (.unknownAnn (.pyInt 888)
            ["_func: fun888. Argument: x, Annotation: 888"]))
    ∧ errIsMissingB (Builder.build_signature defaultBuilder 3 (.plain fun888)) = false := by
  refine ⟨rfl, rfl, ?_, ?_⟩
  · simp [Builder.build_signature, Callable.introspect, fun888, build_signature_aux_eq,
      buildParams_cons, buildParams_nil, convertAnn_some, map_base, is_numba_type,
      isFuncHandleB, mapLookup, defaultBuilder, DEFAULT_TYPE_MAPPING, PyVal.hashableB,
      List.find?, pyval_eqb_def, PyVal.beq, AnjitErr.appendInfo, renderAnn, renderVal]
    rfl
  · simp [Builder.build_signature, Callable.introspect, fun888, build_signature_aux_eq,
      buildParams_cons, buildParams_nil, convertAnn_some, map_base, is_numba_type,
      isFuncHandleB, mapLookup, defaultBuilder, DEFAULT_TYPE_MAPPING, PyVal.hashableB,
      List.find?, pyval_eqb_def, PyVal.beq, AnjitErr.appendInfo, renderAnn, renderVal,
      errIsMissingB]

theorem appendInfo_stripInfo (e : AnjitErr) (s : String) :
    (e.appendInfo s).stripInfo = e.stripInfo := by
  cases e <;> rfl

theorem appendInfo_infoOf (e : AnjitErr) (s : String) :
    (e.appendInfo s).infoOf = e.infoOf ++ [s] := by
  cases e <;> rfl

theorem buildParams_error (fuel : Nat) (b : Builder) (fname : String)
    (ps : List (String × Option PyVal)) (e : AnjitErr)
    (h : buildParams fuel b fname ps = .error (.anjit e)) :
    ∃ e₀ msg, (∃ p ∈ ps, convertAnn fuel b p.1 p.2 b.on_missing_arg = .error (.anjit e₀))
      ∧ e = e₀.appendInfo msg := by
  induction ps with
  | nil =>
    rw [buildParams_nil] at h
    cases h
  | cons q rest ih =>
    obtain ⟨pn, pa⟩ := q
    rw [buildParams_cons] at h
    cases hc : convertAnn fuel b pn pa b.on_missing_arg with
    | ok t =>
      rw [hc] at h
      cases hr : buildParams fuel b fname rest with
      | ok ts => rw [hr] at h; cases h
      | error e2 =>
        rw [hr] at h
        cases e2 with
        | anjit e3 =>
          cases h
          obtain ⟨e₀, msg, ⟨p, hp, hcv⟩, heq⟩ := ih hr
          exact ⟨e₀, msg, ⟨p, List.mem_cons_of_mem _ hp, hcv⟩, heq⟩
        | typeError m => cases h
        | keyError m => cases h
        | valueError m => cases h
        | noFuel => cases h
    | error e2 =>
      rw [hc] at h
      cases e2 with
      | anjit e1 =>
        cases e1 with
        | unknownAnn v i =>
          cases h
          exact ⟨.unknownAnn v i,
            "_func: " ++ fname ++ ". Argument: " ++ pn ++ ", Annotation: " ++ renderAnn pa,
            ⟨(pn, pa), List.mem_cons_self _ _, hc⟩, rfl⟩
        | missingAnn n i =>
          cases h
          exact ⟨.missingAnn n i, "_func: " ++ fname,
            ⟨(pn, pa), List.mem_cons_self _ _, hc⟩, rfl⟩
        | notNumbaSig v i =>
          cases h
          exact ⟨.notNumbaSig v i,
            "_func: " ++ fname ++ ". Argument: " ++ pn ++ ", Annotation: " ++ renderAnn pa,
            ⟨(pn, pa), List.mem_cons_self _ _, hc⟩, rfl⟩
      | typeError m => cases h
      | keyError m => cases h
      | valueError m => cases h
      | noFuel => cases h

/-- Claim C9: when resolution fails inside the builder with a library
exception, the propagated exception is the resolver's own error with one
context line appended: same class and carried value (`stripInfo`
agrees), diagnostic info extended by exactly that line, and the
originating failure is a `convert_annotation` call on one of the
parameters (under the missing-argument policy) or on the return
annotation (under the missing-return policy). -/
theorem c9_error_enrichment (fuel : Nat) (b : Builder) (fname : String)
    (ps : List (String × Option PyVal)) (ret : Option PyVal) (e : AnjitErr)
    (h : build_signature_aux fuel b fname ps ret = .error (.anjit e)) :
    ∃ e₀ msg, e = e₀.appendInfo msg
      ∧ e.stripInfo = e₀.stripInfo
      ∧ e.infoOf = e₀.infoOf ++ [msg]
      ∧ ((∃ p ∈ ps, convertAnn fuel b p.1 p.2 b.on_missing_arg = .error (.anjit e₀))
         ∨ convertAnn fuel b "return" ret b.on_missing_ret = .error (.anjit e₀)) := by
  rw [build_signature_aux_eq] at h
  cases hps : buildParams fuel b fname ps with
  | error e2 =>
    rw [hps] at h
    cases e2 with
    | anjit e3 =>
      have he : e3 = e := by
        injection h with h1
        injection h1
      subst he
      obtain ⟨e₀, msg, hor, heq⟩ := buildParams_error fuel b fname ps e3 hps
      subst heq
      exact ⟨e₀, msg, rfl, appendInfo_stripInfo e₀ msg, appendInfo_infoOf e₀ msg,
        Or.inl hor⟩
    | typeError m => cases h
    | keyError m => cases h
    | valueError m => cases h
    | noFuel => cases h
  | ok ts =>
    rw [hps] at h
    cases hr : convertAnn fuel b "return" ret b.on_missing_ret with
    | ok tr => rw [hr] at h; cases h
    | error e2 =>
      rw [hr] at h
      cases e2 with
      | anjit e1 =>
        cases e1 with
        | unknownAnn v i =>
          cases h
          exact ⟨.unknownAnn v i, "_func: " ++ fname ++ ". Return annotation: " ++ renderAnn ret,
            rfl, appendInfo_stripInfo _ _, appendInfo_infoOf _ _, Or.inr rfl⟩
        | missingAnn n i =>
          cases h
          exact ⟨.missingAnn n i, "_func: " ++ fname,
            rfl, appendInfo_stripInfo _ _, appendInfo_infoOf _ _, Or.inr rfl⟩
        | notNumbaSig v i =>
          cases h
          exact ⟨.notNumbaSig v i, "_func: " ++ fname ++ ". Return annotation: " ++ renderAnn ret,
            rfl, appendInfo_stripInfo _ _, appendInfo_infoOf _ _, Or.inr rfl⟩
      | typeError m => cases h
      | keyError m => cases h
      | valueError m => cases h
      | noFuel => cases h

/-- Claim C9 witness: the theorem applied to the failing build of
`fun888(x: 888, y) -> float`, whose propagated error is the resolver's
`UnknownAnnotation(888)` with one context line appended. -/
theorem c9_error_enrichment_witness :
    ∃ e₀ msg,
      AnjitErr.unknownAnn (.pyInt 888) ["_func: fun888. Argument: x, Annotation: 888"]
        = e₀.appendInfo msg
      ∧ (AnjitErr.unknownAnn (.pyInt 888)
          ["_func: fun888. Argument: x, Annotation: 888"]).stripInfo = e₀.stripInfo
      ∧ (AnjitErr.unknownAnn (.pyInt 888)
          ["_func: fun888. Argument: x, Annotation: 888"]).infoOf = e₀.infoOf ++ [msg]
      ∧ ((∃ p ∈ fun888.params,
            convertAnn 3 defaultBuilder p.1 p.2 defaultBuilder.on_missing_arg
              = .error (.anjit e₀))
         ∨ convertAnn 3 defaultBuilder "return" fun888.ret defaultBuilder.on_missing_ret
              = .error (.anjit e₀)) := by
  apply c9_error_enrichment 3 defaultBuilder "fun888" fun888.params fun888.ret
  show build_signature_aux 3 defaultBuilder fun888.name fun888.params fun888.ret = _
  have h : Builder.build_signature defaultBuilder 3 (.plain fun888)
      = .error (.anjit (.unknownAnn (.pyInt 888)
          ["_func: fun888. Argument: x, Annotation: 888"])) := by
    simp [Builder.build_signature, Callable.introspect, fun888, build_signature_aux_eq,
      buildParams_cons, buildParams_nil, convertAnn_some, map_base, is_numba_type,
      isFuncHandleB, mapLookup, defaultBuilder, DEFAULT_TYPE_MAPPING, PyVal.hashableB,
      List.find?, pyval_eqb_def, PyVal.beq, AnjitErr.appendInfo, renderAnn, renderVal]
    rfl
  exact h

theorem lookupSig_dictSet (m : List (String × NSig)) (k : String) (v : NSig) :
    lookupSig (dictSet m k v) k = some v := by
  induction m with
  | nil => simp [dictSet, lookupSig, List.find?]
  | cons p rest ih =>
    cases hpk : (p.1 == k) with
    | true => simp [dictSet, hpk, lookupSig, List.find?]
    | false =>
      simp only [dictSet, hpk, Bool.false_eq_true, if_false]
      simpa [lookupSig, List.find?, hpk] using ih

/-- Claim C6 (amended): with `disable_jit=True`, `njit` returns its
argument unchanged with no backend call, and `anjit` used as a bare
decorator returns the original function object; but `anjit` used as a
configured decorator factory (`func=None`) returns Python `None`, so the
factory convention does not hand back the original function. -/
theorem c6_disable_jit (fuel : Nat) (jm : JitManager) (c : Callable) (a : NjitArg)
    (mOv : Option (List (PyVal × NType))) (o1 o2 : Option PyVal)
    (h : jm.disable_jit = true) :
    JitManager.anjit fuel jm (some c) mOv o1 o2 = .value c
    ∧ JitManager.njit jm a = .passthrough a
    ∧ JitManager.anjit fuel jm none mOv o1 o2 = .pyNone := by
  refine ⟨?_, ?_, ?_⟩ <;> simp [JitManager.anjit, JitManager.njit, h]

/-- Claim C6 witness: the amended theorem applied to a
`JitManager(disable_jit=True)`. -/
theorem c6_disable_jit_witness :
    JitManager.anjit 3 jmDisabled (some (.plain fun1a)) none none none
      = .value (.plain fun1a)
    ∧ JitManager.njit jmDisabled (.sig sigIF) = .passthrough (.sig sigIF)
    ∧ JitManager.anjit 3 jmDisabled none none none none = .pyNone :=
  c6_disable_jit 3 jmDisabled (.plain fun1a) (.sig sigIF) none none none rfl

/-- Claim C6 counterexample: under `disable_jit=True`, the factory
convention `@jm.anjit()` first returns Python `None`, and applying that
to the function raises `TypeError` instead of returning the original
function object. -/
theorem c6_counterexample :
    JitManager.anjit 3 jmDisabled none none none none = .pyNone
    ∧ JitResult.applyTo 3 (JitManager.anjit 3 jmDisabled none none none none)
        (.plain fun1a) = .raise (.typeError "NoneType object is not callable")
    ∧ JitResult.applyTo 3 (JitManager.anjit 3 jmDisabled none none none none)
        (.plain fun1a) ≠ .value (.plain fun1a) := by
  refine ⟨rfl, rfl, ?_⟩
  simp [JitManager.anjit, jmDisabled, JitManager.init, JitResult.applyTo]

/-- Claim C7: registering under a name already present fails with the
duplicate-name `ValueError` and leaves the registry untouched when
`raise_on_duplicate=True` (whatever the second argument); with
`raise_on_duplicate=False` it succeeds and the new signature silently
overwrites the entry. -/
theorem c7_register_duplicate (fuel : Nat) (jm : JitManager) (name : String)
    (v : RegArg) (s : NSig)
    (hdup : memSig jm.signatures name = true) :
    JitManager.register fuel jm (some (.str name)) (some v) true
        = (jm, .error (.valueError (name ++ " already registered.")))
    ∧ lookupSig ((JitManager.register fuel jm (some (.str name)) (some (.sig s))
        false).1).signatures name = some s
    ∧ (JitManager.register fuel jm (some (.str name)) (some (.sig s)) false).2
        = .ok .pyNone := by
  refine ⟨?_, ?_, ?_⟩
  · simp [JitManager.register, registerCore, hdup]
  · simp [JitManager.register, registerCore, lookupSig_dictSet]
  · simp [JitManager.register, registerCore]

/-- Claim C7 witness: the theorem applied to a manager whose registry
already holds `"g"`, overwriting with `void(int64)`. -/
theorem c7_register_duplicate_witness :
    JitManager.register 3 jmReg (some (.str "g")) (some (.cal (.plain fun1a))) true
        = (jmReg, .error (.valueError ("g" ++ " already registered.")))
    ∧ lookupSig ((JitManager.register 3 jmReg (some (.str "g"))
        (some (.sig ⟨[.int64], .void⟩)) false).1).signatures "g"
        = some ⟨[.int64], .void⟩
    ∧ (JitManager.register 3 jmReg (some (.str "g"))
        (some (.sig ⟨[.int64], .void⟩)) false).2 = .ok .pyNone := by
  have h := c7_register_duplicate 3 jmReg "g" (.cal (.plain fun1a)) ⟨[.int64], .void⟩ rfl
  exact ⟨h.1, h.2.1, h.2.2⟩

/-- Claim C8 (amended): the builder unwraps a `staticmethod` before
introspection, and the stateless `anjit` re-wraps the compiled result as
a `staticmethod`; but `njit_tmpl`, although it also unwraps the
`staticmethod` before handing it to the backend, returns the compiled
result bare, without re-wrapping. -/
theorem c8_staticmethod_handling :
    (∀ (fuel : Nat) (b : Builder) (f : PyFunc),
      Builder.build_signature b fuel (.static (.plain f))
        = Builder.build_signature b fuel (.plain f))
    ∧ (∀ (fuel : Nat) (m : List (PyVal × NType)) (oma omr : PyVal) (f : PyFunc)
        (sig : NSig),
      Builder.build_signature ⟨some m, oma, omr⟩ fuel (.plain f) = .ok sig →
      anjit fuel (some (.static (.plain f))) (some m) oma omr
        = .value (.static (.compiled f sig)))
    ∧ (∀ (jm : JitManager) (name : String) (s : NSig) (f : PyFunc),
      lookupSig jm.signatures name = some s →
      JitManager.njit_tmpl jm (some (.str name)) (some (.cal (.static (.plain f))))
        = .ok (.value (.compiled f s))) := by
  refine ⟨?_, ?_, ?_⟩
  · intro fuel b f
    rfl
  · intro fuel m oma omr f sig h
    simp [anjit, njitDeco, h, njitCompile]
  · intro jm name s f h
    simp [JitManager.njit_tmpl, tmplFinal, h, tmplCompile, Callable.callableB]

/-- Claim C8 witness: the amended theorem applied to
`staticmethod(fun1a)` through `anjit` (re-wrapped) and through
`njit_tmpl` against the registered signature `"g"` (not re-wrapped). -/
theorem c8_staticmethod_handling_witness :
    anjit 3 (some (.static (.plain fun1a))) (some DEFAULT_TYPE_MAPPING)
        (.pyStr "raise") (.pyStr "raise")
      = .value (.static (.compiled fun1a sigIF))
    ∧ JitManager.njit_tmpl jmReg (some (.str "g"))
        (some (.cal (.static (.plain fun1a))))
      = .ok (.value (.compiled fun1a sigIF)) := by
  constructor
  · apply c8_staticmethod_handling.2.1 3 DEFAULT_TYPE_MAPPING (.pyStr "raise")
      (.pyStr "raise") fun1a sigIF
    simp [Builder.build_signature, Callable.introspect, fun1a, build_signature_aux_eq,
      buildParams_cons, buildParams_nil, convertAnn_some, map_base, is_numba_type,
      isFuncHandleB, mapLookup, DEFAULT_TYPE_MAPPING, PyVal.hashableB, List.find?,
      pyval_eqb_def, PyVal.beq, NType.mkSig, sigIF]
  · exact c8_staticmethod_handling.2.2 jmReg "g" sigIF fun1a rfl

/-- Claim C8 counterexample: `njit_tmpl` applied to a
`staticmethod`-wrapped function compiles the unwrapped function but
returns it bare — the result is not `staticmethod`-wrapped. -/
theorem c8_counterexample :
    JitManager.njit_tmpl jmReg (some (.str "g")) (some (.cal (.static (.plain fun1a))))
      = .ok (.value (.compiled fun1a sigIF))
    ∧ tmplIsStaticB (JitManager.njit_tmpl jmReg (some (.str "g"))
        (some (.cal (.static (.plain fun1a))))) = false := by
  exact ⟨rfl, rfl⟩

/-- Claim C10: `anjit` and `JitManager` substitute the four-entry default
mapping (`None` to `void`, `int` to `int64`, `float` to `float64`,
`bool` to `boolean`) for the `DEFAULT` sentinel, so an `anjit` of a
function returning `None` builds a void signature — but the module-level
`build_signature` does NOT substitute: it stores the sentinel in the
`Builder`, and the first mapping lookup raises `TypeError` instead. -/
theorem c10_default_mapping :
    build_signature 3 (.plain funIntToNone) none (.pyStr "raise") (.pyStr "raise")
      = .error (.typeError "object is not subscriptable")
    ∧ anjit 3 (some (.plain funIntToNone)) none (.pyStr "raise") (.pyStr "raise")
      = .value (.compiled funIntToNone (NType.mkSig .void [.int64]))
    ∧ (JitManager.init none (.pyStr "raise") (.pyStr "raise") false).mapping
      = DEFAULT_TYPE_MAPPING
    ∧ DEFAULT_TYPE_MAPPING
      = [(.pyNone, .void), (.pyIntTy, .int64), (.pyFloatTy, .float64),
         (.pyBoolTy, .boolean)] := by
  refine ⟨?_, ?_, rfl, rfl⟩
  · simp [build_signature, Builder.build_signature, Callable.introspect, funIntToNone,
      build_signature_aux_eq, buildParams_cons, buildParams_nil, convertAnn_some,
      map_base, is_numba_type, isFuncHandleB, mapLookup]
  · simp [anjit, njitDeco, njitCompile, Builder.build_signature, Callable.introspect,
      funIntToNone, build_signature_aux_eq, buildParams_cons, buildParams_nil,
      convertAnn_some, map_base, is_numba_type, isFuncHandleB, mapLookup,
      DEFAULT_TYPE_MAPPING, PyVal.hashableB, List.find?, pyval_eqb_def, PyVal.beq,
      NType.mkSig]
